import Mathlib

/-!
Shallow embedding of the LangGraph JSON Rules Validator
(`src/json_validator.py` of FaziHamza/LanguageGraph-ai).

The core is `JSONValidator._build_workflow` together with `validate_json`:
a three-node workflow (schema validation, semantic validation via an LLM
judge, final assessment) wired by a conditional edge on the schema outcome.

External collaborators (the `jsonschema.validate` checker, Python's
`json.dumps` / `json.loads`, and the LLM judge `self.llm.invoke`) are
modelled as parameters gathered in an `Env` record; everything else is
translated directly from the source.

Python values flowing through the pipeline (parsed JSON, error lists) are
modelled by `JsonVal`; Python truthiness, `len()` and `str.join` are
modelled by `truthy`, `pyLen` and `pyJoin`, including the `TypeError`
cases, since uncaught exceptions in `final_assessment_node` are part of
the observable behaviour (modelled with `Except String`).
-/

namespace JsonValidator

/-- A Python value as produced by `json.loads` (numbers restricted to
integers; no claim depends on float behaviour). -/
inductive JsonVal where
  | null : JsonVal
  | bool : Bool → JsonVal
  | num : Int → JsonVal
  | str : String → JsonVal
  | arr : List JsonVal → JsonVal
  | obj : List (String × JsonVal) → JsonVal

/-- Python's type name for a value, as it appears in error messages. -/
def pyTypeName : JsonVal → String
  | .null => "NoneType"
  | .bool _ => "bool"
  | .num _ => "int"
  | .str _ => "str"
  | .arr _ => "list"
  | .obj _ => "dict"

/-- Python truthiness of a value (`if v:`). -/
def truthy : JsonVal → Bool
  | .null => false
  | .bool b => b
  | .num n => !(n == 0)
  | .str s => !(s == "")
  | .arr xs => !xs.isEmpty
  | .obj fs => !fs.isEmpty

/-- Python `len(v)`; raises `TypeError` on values with no length. -/
def pyLen : JsonVal → Except String Nat
  | .str s => .ok s.length
  | .arr xs => .ok xs.length
  | .obj fs => .ok fs.length
  | v => .error ("object of type \x27" ++ pyTypeName v ++ "\x27 has no len()")

/-- Items of a joined iterable: every element must be a `str`. -/
def strItems : List JsonVal → Except String (List String)
  | [] => .ok []
  | .str s :: rest => (strItems rest).map (fun l => s :: l)
  | v :: _ => .error ("sequence item: expected str instance, " ++ pyTypeName v ++ " found")

/-- Python `sep.join(v)`: joins a list of strings, the characters of a
string, or the keys of a dict; raises `TypeError` otherwise. -/
def pyJoin (sep : String) : JsonVal → Except String String
  | .str s => .ok (String.intercalate sep (s.toList.map (fun c => String.mk [c])))
  | .arr xs => (strItems xs).map (String.intercalate sep)
  | .obj fs => .ok (String.intercalate sep (fs.map Prod.fst))
  | _ => .error "can only join an iterable"

/-- First-match association lookup, modelling `dict` access on the parsed
JSON object (keys of a Python dict are unique, so first match is the match). -/
def lookupField : List (String × JsonVal) → String → Option JsonVal
  | [], _ => none
  | (k, v) :: rest, key => if k = key then some v else lookupField rest key

/-- Python `d.get(key, default)` on a dict value. -/
def dictGet (fs : List (String × JsonVal)) (key : String) (default : JsonVal) : JsonVal :=
  (lookupField fs key).getD default

/-- `ValidationStatus` enum of `json_validator.py`. -/
inductive ValidationStatus where
  | pending
  | schema_valid
  | schema_invalid
  | semantic_valid
  | semantic_invalid
  | complete
  deriving DecidableEq

/-- The `schema_validation` section of the report dictionary. -/
structure SchemaSection where
  passed : Bool
  errors : List String

/-- The `semantic_validation` section of the report dictionary.  Its
`errors` entry is whatever Python value the pipeline stored in
`state["semantic_errors"]`, which need not be a list of strings when the
judge's response carries an arbitrary `errors` field. -/
structure SemanticSection where
  passed : Bool
  errors : JsonVal

/-- The `validation_report` dictionary built by `final_assessment_node`. -/
structure ValidationReport where
  overall_valid : Bool
  schema_validation : SchemaSection
  semantic_validation : SemanticSection
  summary : String

/-- The `ValidationState` TypedDict.  `validation_report` is `none` while
still the initial empty dict.  `schema_errors` is always a list of strings
(every assignment in the source stores one); `semantic_errors` is a
`JsonVal` because `semantic_validation_node` can store the judge's raw
`errors` value. -/
structure ValidationState where
  json_data : JsonVal
  schema : JsonVal
  custom_rules : List String
  status : ValidationStatus
  schema_errors : List String
  semantic_errors : JsonVal
  is_valid : Bool
  validation_report : Option ValidationReport

/-- Outcome of `jsonschema.validate(instance, schema)`: normal return,
a `ValidationError` with message `msg`, or another exception with
message `msg`. -/
inductive SchemaOutcome where
  | ok
  | violation (msg : String)
  | fault (msg : String)

/-- Outcome of `self.llm.invoke(messages)`: an exception with message
`msg`, or a response whose `.content` is `content`. -/
inductive LLMOutcome where
  | raises (msg : String)
  | returns (content : String)

/-- The two messages sent to the judge (`SystemMessage`, `HumanMessage`). -/
structure Request where
  system : String
  human : String

/-- External collaborators of the core, modelled as functions:
`check` is `jsonschema.validate`, `dumps` is `json.dumps(·, indent=2)`,
`loads` is `json.loads` (`none` on `JSONDecodeError`), and `llm` is the
external semantic judge reached through `self.llm.invoke`. -/
structure Env where
  check : JsonVal → JsonVal → SchemaOutcome
  dumps : JsonVal → String
  loads : String → Option JsonVal
  llm : Request → LLMOutcome

/-- The system prompt of `semantic_validation_node` up to the `rules`
placeholder. -/
def sysPromptPre : String :=
  "You are a JSON validation expert. Analyze the provided JSON data against the custom rules and determine if it\x27s valid.\n\nRules to validate:\n"

/-- The system prompt after the `rules` placeholder. -/
def sysPromptPost : String :=
  "\n\nRespond with a JSON object containing:\n- \"is_valid\": boolean\n- \"errors\": list of error messages (empty if valid)\n- \"warnings\": list of warning messages (optional)\n\nBe thorough and check each rule carefully."

/-- `system_prompt.format(rules='\n'.join(state['custom_rules']))`. -/
def systemPromptFor (rules : List String) : String :=
  sysPromptPre ++ String.intercalate "\n" rules ++ sysPromptPost

/-- The `human_prompt` f-string. -/
def humanPromptFor (dumps : JsonVal → String) (doc : JsonVal) (rules : List String) : String :=
  "JSON Data to validate:\n" ++ dumps doc ++ "\n\nCustom Rules:\n" ++
    String.intercalate "\n" (rules.map (fun r => "- " ++ r)) ++
    "\n\nPlease validate this JSON against the rules and provide your assessment."

/-- The `messages` list passed to `self.llm.invoke`. -/
def buildRequest (dumps : JsonVal → String) (doc : JsonVal) (rules : List String) : Request :=
  { system := systemPromptFor rules, human := humanPromptFor dumps doc rules }

/-- `schema_validation_node`: runs the structural checker and recovers
both `ValidationError` and any other exception into `schema_errors`. -/
def schema_validation_node (env : Env) (s : ValidationState) : ValidationState :=
  match env.check s.json_data s.schema with
  | .ok => { s with status := .schema_valid, schema_errors := [] }
  | .violation m => { s with status := .schema_invalid, schema_errors := [m] }
  | .fault m =>
      { s with status := .schema_invalid,
               schema_errors := ["Schema validation error: " ++ m] }

/-- `semantic_validation_node`.  The second component counts how many
times `self.llm.invoke` was called during this node execution (ghost
instrumentation; the node calls it exactly once on the non-skip path,
whether it raises or returns).

The first branch is the in-node skip check (`status == SCHEMA_INVALID`);
note that the graph's conditional edge routes schema-invalid runs away
from this node, so that branch is unreachable in the compiled workflow.
A parsed response that is not a dict makes `validation_result.get` raise
`AttributeError`, which the outer `except Exception` converts into a
`"Semantic validation error: ..."` entry. -/
def semantic_validation_node (env : Env) (s : ValidationState) : ValidationState × Nat :=
  if s.status = ValidationStatus.schema_invalid then
    ({ s with semantic_errors := .arr [.str "Skipped due to schema validation failure"] }, 0)
  else
    match env.llm (buildRequest env.dumps s.json_data s.custom_rules) with
    | .raises msg =>
        ({ s with status := .semantic_invalid,
                  semantic_errors := .arr [.str ("Semantic validation error: " ++ msg)] }, 1)
    | .returns content =>
        match env.loads content with
        | none =>
            ({ s with status := .semantic_invalid,
                      semantic_errors := .arr [.str "Failed to parse LLM validation response"] }, 1)
        | some (.obj fs) =>
            if truthy (dictGet fs "is_valid" (.bool false)) then
              ({ s with status := .semantic_valid, semantic_errors := .arr [] }, 1)
            else
              ({ s with status := .semantic_invalid,
                        semantic_errors :=
                          dictGet fs "errors" (.arr [.str "Semantic validation failed"]) }, 1)
        | some v =>
            ({ s with status := .semantic_invalid,
                      semantic_errors :=
                        .arr [.str ("Semantic validation error: \x27" ++ pyTypeName v ++
                          "\x27 object has no attribute \x27get\x27")] }, 1)

/-- `schema_valid = state["status"] in [SCHEMA_VALID, SEMANTIC_VALID, SEMANTIC_INVALID]`. -/
def statusCountsSchemaValid : ValidationStatus → Bool
  | .schema_valid => true
  | .semantic_valid => true
  | .semantic_invalid => true
  | _ => false

/-- `_generate_summary`.  Fallible because `'; '.join(semantic_errors)`
raises on non-joinable values. -/
def generate_summary (s : ValidationState) : Except String String :=
  if s.is_valid then
    .ok "JSON data is valid according to both schema and semantic rules."
  else
    let schemaIssues : List String :=
      if s.schema_errors.isEmpty then []
      else ["Schema validation failed: " ++ String.intercalate "; " s.schema_errors]
    if truthy s.semantic_errors then
      match pyJoin "; " s.semantic_errors with
      | .error e => .error e
      | .ok joined =>
          .ok ("JSON data is invalid. Issues found: " ++
            String.intercalate " | "
              (schemaIssues ++ ["Semantic validation failed: " ++ joined]))
    else
      .ok ("JSON data is invalid. Issues found: " ++
        String.intercalate " | " (schemaIssues ++ []))

/-- `final_assessment_node`.  Fallible: `len(state["semantic_errors"])`
and the summary's join raise `TypeError` on unsized / non-joinable
values, and nothing in the source catches exceptions here. -/
def final_assessment_node (s : ValidationState) : Except String ValidationState :=
  let schemaValid := statusCountsSchemaValid s.status
  let semanticValid := decide (s.status = ValidationStatus.semantic_valid)
  let s := { s with is_valid := schemaValid && semanticValid,
                    status := ValidationStatus.complete }
  match pyLen s.semantic_errors with
  | .error e => .error e
  | .ok semLen =>
    match generate_summary s with
    | .error e => .error e
    | .ok summary =>
      .ok { s with validation_report := some {
        overall_valid := s.is_valid,
        schema_validation := { passed := s.schema_errors.isEmpty, errors := s.schema_errors },
        semantic_validation := { passed := decide (semLen = 0), errors := s.semantic_errors },
        summary := summary } }

/-- `should_continue_to_semantic`: the router of the conditional edge. -/
def should_continue_to_semantic (s : ValidationState) : String :=
  if s.status = ValidationStatus.schema_valid then "semantic_validation"
  else "final_assessment"

/-- State reaching `final_assessment`, together with the number of judge
invocations: entry node, then the conditional edge.  When the router
answers `"final_assessment"` the semantic node is bypassed entirely. -/
def pre_final (env : Env) (s0 : ValidationState) : ValidationState × Nat :=
  let s1 := schema_validation_node env s0
  if should_continue_to_semantic s1 = "semantic_validation" then
    semantic_validation_node env s1
  else
    (s1, 0)

/-- One run of the compiled workflow from an initial state. -/
def runWorkflow (env : Env) (s0 : ValidationState) : Except String ValidationState :=
  final_assessment_node (pre_final env s0).1

/-- The initial state built by `validate_json`. -/
def initial_state (d sch : JsonVal) (rules : List String) : ValidationState :=
  { json_data := d, schema := sch, custom_rules := rules,
    status := .pending, schema_errors := [], semantic_errors := .arr [],
    is_valid := false, validation_report := none }

/-- `validate_json`: build the initial state, run the workflow, return
`final_state["validation_report"]` (`none` would be the initial empty
dict).  An `Except.error` is an exception escaping to the caller. -/
def validate_json (env : Env) (d sch : JsonVal) (rules : List String) :
    Except String (Option ValidationReport) :=
  (runWorkflow env (initial_state d sch rules)).map (fun st => st.validation_report)

/-- Number of calls the whole run makes to the external judge. -/
def llm_calls (env : Env) (d sch : JsonVal) (rules : List String) : Nat :=
  (pre_final env (initial_state d sch rules)).2

/-- The judge's parsed `errors` value, whenever it would be consulted on
this run (response parsed to an object and used), is a genuine list of
strings.  This is the well-formedness proviso under which the engine is
total; the response contract of the spec implies it. -/
def judge_errors_wellformed (env : Env) (d : JsonVal) (rules : List String) : Prop :=
  ∀ c fs v, env.llm (buildRequest env.dumps d rules) = .returns c →
    env.loads c = some (.obj fs) →
    lookupField fs "errors" = some v →
    ∃ l : List String, v = JsonVal.arr (l.map JsonVal.str)

/-! ## Concrete environments and the reports the pipeline produces on them -/

/-- Structural checker rejecting every document with the sample-schema
violation message for the missing required `user` property; judge
unreachable. -/
def envC1 : Env :=
  { check := fun _ _ => .violation "\x27user\x27 is a required property",
    dumps := fun _ => "",
    loads := fun _ => none,
    llm := fun _ => .raises "Connection error" }

/-- Report the pipeline produces on `envC1`. -/
def repC1 : ValidationReport :=
  { overall_valid := false,
    schema_validation :=
      { passed := false, errors := ["\x27user\x27 is a required property"] },
    semantic_validation := { passed := true, errors := .arr [] },
    summary := "JSON data is invalid. Issues found: Schema validation failed: \x27user\x27 is a required property" }

/-- Everything succeeds: structural check passes and the judge answers a
conforming `is_valid = true` response. -/
def envOkJudge : Env :=
  { check := fun _ _ => .ok,
    dumps := fun _ => "doc",
    loads := fun _ => some (.obj [("is_valid", .bool true), ("errors", .arr [])]),
    llm := fun _ => .returns "resp" }

/-- Report the pipeline produces on `envOkJudge`. -/
def repOkJudge : ValidationReport :=
  { overall_valid := true,
    schema_validation := { passed := true, errors := [] },
    semantic_validation := { passed := true, errors := .arr [] },
    summary := "JSON data is valid according to both schema and semantic rules." }

/-- Behaviourally identical to `envOkJudge` but a syntactically distinct
judge function (for the determinism claim). -/
def envOkJudgeTwin : Env :=
  { check := fun _ _ => .ok,
    dumps := fun _ => "doc",
    loads := fun _ => some (.obj [("is_valid", .bool true), ("errors", .arr [])]),
    llm := fun r => .returns (if r.human = r.human then "resp" else "other") }

/-- Structural pass; the judge call raises (simulated network failure). -/
def envRaises : Env :=
  { check := fun _ _ => .ok,
    dumps := fun _ => "",
    loads := fun _ => none,
    llm := fun _ => .raises "Connection error" }

/-- Structural pass; the judge answers content `json.loads` rejects. -/
def envUnparseable : Env :=
  { check := fun _ _ => .ok,
    dumps := fun _ => "",
    loads := fun _ => none,
    llm := fun _ => .returns "not json" }

/-- Report the pipeline produces on `envUnparseable`. -/
def repUnparseable : ValidationReport :=
  { overall_valid := false,
    schema_validation := { passed := true, errors := [] },
    semantic_validation :=
      { passed := false, errors := .arr [.str "Failed to parse LLM validation response"] },
    summary := "JSON data is invalid. Issues found: Semantic validation failed: Failed to parse LLM validation response" }

/-- Structural pass; the judge answers a parsed object with
`is_valid = false` and no `errors` field. -/
def envFalsy : Env :=
  { check := fun _ _ => .ok,
    dumps := fun _ => "",
    loads := fun _ => some (.obj [("is_valid", .bool false)]),
    llm := fun _ => .returns "resp" }

/-- Report the pipeline produces on `envFalsy`. -/
def repFalsy : ValidationReport :=
  { overall_valid := false,
    schema_validation := { passed := true, errors := [] },
    semantic_validation :=
      { passed := false, errors := .arr [.str "Semantic validation failed"] },
    summary := "JSON data is invalid. Issues found: Semantic validation failed: Semantic validation failed" }

/-- Structural pass; the judge answers a parsed object whose `is_valid`
is the JSON number `1` — truthy in Python but not the boolean `true`. -/
def envTruthyNum : Env :=
  { check := fun _ _ => .ok,
    dumps := fun _ => "",
    loads := fun _ => some (.obj [("is_valid", .num 1)]),
    llm := fun _ => .returns "resp" }

/-- Report the pipeline produces on `envTruthyNum`. -/
def repTruthyNum : ValidationReport :=
  { overall_valid := true,
    schema_validation := { passed := true, errors := [] },
    semantic_validation := { passed := true, errors := .arr [] },
    summary := "JSON data is valid according to both schema and semantic rules." }

/-- Structural pass; the judge answers a parsed object with falsy
`is_valid` and a numeric `errors` field — `len(0)` then raises
`TypeError` inside `final_assessment_node`. -/
def envErrorsNum : Env :=
  { check := fun _ _ => .ok,
    dumps := fun _ => "",
    loads := fun _ => some (.obj [("is_valid", .bool false), ("errors", .num 0)]),
    llm := fun _ => .returns "resp" }

/-- Checker whose outcome depends on the document: `null` passes,
booleans raise a `ValidationError`, everything else makes the checking
routine itself fail.  The judge then approves. -/
def envCheckCases : Env :=
  { check := fun d _ =>
      match d with
      | .null => .ok
      | .bool _ => .violation "document rejected by schema"
      | _ => .fault "malformed schema",
    dumps := fun _ => "",
    loads := fun _ => some (.obj [("is_valid", .bool true), ("errors", .arr [])]),
    llm := fun _ => .returns "resp" }

/-- A terminal-bound workflow state fed directly to the final node (for
the report-builder claim). -/
def stateC9 : ValidationState :=
  { json_data := .obj [], schema := .obj [], custom_rules := [],
    status := .semantic_invalid, schema_errors := [],
    semantic_errors := .arr [.str "age rule violated"], is_valid := false,
    validation_report := none }

/-! ## Scenario lemmas: one per shape of run -/

/-- Joining a list of genuine strings never raises. -/
theorem strItems_map_str (l : List String) : strItems (l.map .str) = .ok l := by
  induction l with
  | nil => rfl
  | cons a t ih => simp [strItems, ih, Except.map]

/-- `'; '.join` on a list of strings is plain intercalation. -/
theorem pyJoin_arr_str (sep : String) (l : List String) :
    pyJoin sep (.arr (l.map .str)) = .ok (String.intercalate sep l) := by
  simp [pyJoin, strItems_map_str, Except.map]

/-- Run shape: the structural checker reports a violation. -/
theorem run_violation (env : Env) (d sch : JsonVal) (rules : List String) (m : String)
    (h : env.check d sch = .violation m) :
    validate_json env d sch rules = .ok (some
      { overall_valid := false,
        schema_validation := { passed := false, errors := [m] },
        semantic_validation := { passed := true, errors := .arr [] },
        summary := "JSON data is invalid. Issues found: " ++
          ("Schema validation failed: " ++ m) })
    ∧ llm_calls env d sch rules = 0 := by
  simp only [validate_json, runWorkflow, llm_calls, pre_final, schema_validation_node,
    initial_state, should_continue_to_semantic, h]
  exact ⟨rfl, rfl⟩

/-- Run shape: the structural checker itself fails with an exception. -/
theorem run_fault (env : Env) (d sch : JsonVal) (rules : List String) (m : String)
    (h : env.check d sch = .fault m) :
    validate_json env d sch rules = .ok (some
      { overall_valid := false,
        schema_validation := { passed := false,
                               errors := ["Schema validation error: " ++ m] },
        semantic_validation := { passed := true, errors := .arr [] },
        summary := "JSON data is invalid. Issues found: " ++
          ("Schema validation failed: " ++ ("Schema validation error: " ++ m)) })
    ∧ llm_calls env d sch rules = 0 := by
  simp only [validate_json, runWorkflow, llm_calls, pre_final, schema_validation_node,
    initial_state, should_continue_to_semantic, h]
  exact ⟨rfl, rfl⟩

/-- Run shape: structural check passes and the judge call raises. -/
theorem run_ok_raises (env : Env) (d sch : JsonVal) (rules : List String) (msg : String)
    (hc : env.check d sch = .ok)
    (hl : env.llm (buildRequest env.dumps d rules) = .raises msg) :
    validate_json env d sch rules = .ok (some
      { overall_valid := false,
        schema_validation := { passed := true, errors := [] },
        semantic_validation :=
          { passed := false,
            errors := .arr [.str ("Semantic validation error: " ++ msg)] },
        summary := "JSON data is invalid. Issues found: " ++
          ("Semantic validation failed: " ++ ("Semantic validation error: " ++ msg)) })
    ∧ llm_calls env d sch rules = 1 := by
  simp only [validate_json, runWorkflow, llm_calls, pre_final, schema_validation_node,
    semantic_validation_node, initial_state, should_continue_to_semantic, hc,
    reduceIte, reduceCtorEq, hl]
  exact ⟨rfl, trivial⟩

/-- Run shape: structural pass, judge answers content that `json.loads`
rejects. -/
theorem run_ok_unparseable (env : Env) (d sch : JsonVal) (rules : List String) (c : String)
    (hc : env.check d sch = .ok)
    (hl : env.llm (buildRequest env.dumps d rules) = .returns c)
    (hp : env.loads c = none) :
    validate_json env d sch rules = .ok (some
      { overall_valid := false,
        schema_validation := { passed := true, errors := [] },
        semantic_validation :=
          { passed := false,
            errors := .arr [.str "Failed to parse LLM validation response"] },
        summary := "JSON data is invalid. Issues found: " ++
          ("Semantic validation failed: " ++ "Failed to parse LLM validation response") })
    ∧ llm_calls env d sch rules = 1 := by
  simp only [validate_json, runWorkflow, llm_calls, pre_final, schema_validation_node,
    semantic_validation_node, initial_state, should_continue_to_semantic, hc,
    reduceIte, reduceCtorEq, hl, hp]
  exact ⟨rfl, trivial⟩

/-- Run shape: structural pass, judge answers a JSON object with a truthy
`is_valid`. -/
theorem run_ok_semantic_valid (env : Env) (d sch : JsonVal) (rules : List String)
    (c : String) (fs : List (String × JsonVal))
    (hc : env.check d sch = .ok)
    (hl : env.llm (buildRequest env.dumps d rules) = .returns c)
    (hp : env.loads c = some (.obj fs))
    (hv : truthy (dictGet fs "is_valid" (.bool false)) = true) :
    validate_json env d sch rules = .ok (some
      { overall_valid := true,
        schema_validation := { passed := true, errors := [] },
        semantic_validation := { passed := true, errors := .arr [] },
        summary := "JSON data is valid according to both schema and semantic rules." })
    ∧ llm_calls env d sch rules = 1 := by
  simp only [validate_json, runWorkflow, llm_calls, pre_final, schema_validation_node,
    semantic_validation_node, initial_state, should_continue_to_semantic, hc,
    reduceIte, reduceCtorEq, hl, hp, hv]
  exact ⟨rfl, trivial⟩

/-- Run shape up to the final node: structural pass, judge answers a JSON
object whose `is_valid` is absent or falsy.  The stored `semantic_errors`
is the judge's raw `errors` value (or the default), so the final node may
still raise on it; hence this lemma stops at `pre_final`. -/
theorem pre_final_semantic_invalid (env : Env) (d sch : JsonVal) (rules : List String)
    (c : String) (fs : List (String × JsonVal))
    (hc : env.check d sch = .ok)
    (hl : env.llm (buildRequest env.dumps d rules) = .returns c)
    (hp : env.loads c = some (.obj fs))
    (hv : truthy (dictGet fs "is_valid" (.bool false)) = false) :
    pre_final env (initial_state d sch rules) =
      ({ json_data := d, schema := sch, custom_rules := rules,
         status := .semantic_invalid, schema_errors := [],
         semantic_errors := dictGet fs "errors" (.arr [.str "Semantic validation failed"]),
         is_valid := false, validation_report := none }, 1) := by
  simp only [pre_final, schema_validation_node, semantic_validation_node,
    initial_state, should_continue_to_semantic, hc, reduceIte, reduceCtorEq, hl, hp, hv]

/-- Run shape: structural pass, judge answers JSON that is not an object,
so `validation_result.get` raises `AttributeError`, recovered by the
outer `except Exception`. -/
theorem run_ok_nonobject (env : Env) (d sch : JsonVal) (rules : List String)
    (c : String) (v : JsonVal)
    (hc : env.check d sch = .ok)
    (hl : env.llm (buildRequest env.dumps d rules) = .returns c)
    (hp : env.loads c = some v)
    (hv : ∀ fs, v ≠ .obj fs) :
    validate_json env d sch rules = .ok (some
      { overall_valid := false,
        schema_validation := { passed := true, errors := [] },
        semantic_validation :=
          { passed := false,
            errors := .arr [.str ("Semantic validation error: \x27" ++ pyTypeName v ++
              "\x27 object has no attribute \x27get\x27")] },
        summary := "JSON data is invalid. Issues found: " ++
          ("Semantic validation failed: " ++ ("Semantic validation error: \x27" ++
            pyTypeName v ++ "\x27 object has no attribute \x27get\x27")) })
    ∧ llm_calls env d sch rules = 1 := by
  cases v
  case obj fs => exact absurd rfl (hv fs)
  all_goals
    simp only [validate_json, runWorkflow, llm_calls, pre_final, schema_validation_node,
      semantic_validation_node, initial_state, should_continue_to_semantic, hc,
      reduceIte, reduceCtorEq, hl, hp]
    exact ⟨rfl, trivial⟩

/-- Whatever state enters `final_assessment_node`, a successful final
node yields a report whose `overall_valid` is
`schema_valid AND semantic_valid` as computed from the incoming status. -/
theorem final_assessment_overall (s s' : ValidationState)
    (h : final_assessment_node s = .ok s') :
    ∃ rep, s'.validation_report = some rep ∧
      rep.overall_valid =
        (statusCountsSchemaValid s.status && decide (s.status = .semantic_valid)) := by
  simp only [final_assessment_node] at h
  split at h
  · exact absurd h (by simp)
  · split at h
    · exact absurd h (by simp)
    · cases h
      exact ⟨_, rfl, rfl⟩

/-- Full evaluation of the final node on any state whose `semantic_errors`
is a genuine list of strings (the only values the pipeline itself ever
stores; the judge's raw `errors` value can break this). -/
theorem final_assessment_eq (s : ValidationState) (es : List String)
    (h : s.semantic_errors = .arr (es.map .str)) :
    final_assessment_node s = .ok { s with
      is_valid := statusCountsSchemaValid s.status &&
        decide (s.status = ValidationStatus.semantic_valid),
      status := ValidationStatus.complete,
      validation_report := some {
        overall_valid := statusCountsSchemaValid s.status &&
          decide (s.status = ValidationStatus.semantic_valid),
        schema_validation := { passed := s.schema_errors.isEmpty, errors := s.schema_errors },
        semantic_validation := { passed := es.isEmpty, errors := s.semantic_errors },
        summary :=
          if statusCountsSchemaValid s.status &&
              decide (s.status = ValidationStatus.semantic_valid) then
            "JSON data is valid according to both schema and semantic rules."
          else
            "JSON data is invalid. Issues found: " ++ String.intercalate " | "
              ((if s.schema_errors.isEmpty then [] else
                 ["Schema validation failed: " ++ String.intercalate "; " s.schema_errors]) ++
               (if es.isEmpty then [] else
                 ["Semantic validation failed: " ++ String.intercalate "; " es])) } } := by
  cases es with
  | nil =>
      cases hV : statusCountsSchemaValid s.status &&
          decide (s.status = ValidationStatus.semantic_valid) <;>
        simp [final_assessment_node, generate_summary, h, hV, pyLen, truthy, pyJoin_arr_str]
  | cons a t =>
      have hj : pyJoin "; " (JsonVal.arr (JsonVal.str a :: t.map JsonVal.str)) =
          .ok (String.intercalate "; " (a :: t)) := pyJoin_arr_str "; " (a :: t)
      cases hV : statusCountsSchemaValid s.status &&
          decide (s.status = ValidationStatus.semantic_valid) <;>
        simp [final_assessment_node, generate_summary, h, hV, pyLen, truthy, hj]

/-- On a structural violation the conditional edge routes straight to the
final node: the semantic node (and its skip branch) never executes, so
`semantic_errors` keeps its initial empty-list value. -/
theorem pre_final_violation (env : Env) (d sch : JsonVal) (rules : List String) (m : String)
    (h : env.check d sch = .violation m) :
    pre_final env (initial_state d sch rules) =
      ({ json_data := d, schema := sch, custom_rules := rules,
         status := .schema_invalid, schema_errors := [m], semantic_errors := .arr [],
         is_valid := false, validation_report := none }, 0) := by
  simp only [pre_final, schema_validation_node, initial_state,
    should_continue_to_semantic, h]
  rfl

/-- Same routing when the structural checker itself faults. -/
theorem pre_final_fault (env : Env) (d sch : JsonVal) (rules : List String) (m : String)
    (h : env.check d sch = .fault m) :
    pre_final env (initial_state d sch rules) =
      ({ json_data := d, schema := sch, custom_rules := rules,
         status := .schema_invalid,
         schema_errors := ["Schema validation error: " ++ m], semantic_errors := .arr [],
         is_valid := false, validation_report := none }, 0) := by
  simp only [pre_final, schema_validation_node, initial_state,
    should_continue_to_semantic, h]
  rfl

/-- Every successfully returned report carries as `overall_valid` exactly
the boolean the final node computes from the status entering it. -/
theorem validate_ok_overall (env : Env) (d sch : JsonVal) (rules : List String)
    (rep : ValidationReport)
    (h : validate_json env d sch rules = .ok (some rep)) :
    rep.overall_valid =
      (statusCountsSchemaValid (pre_final env (initial_state d sch rules)).1.status &&
        decide ((pre_final env (initial_state d sch rules)).1.status =
          ValidationStatus.semantic_valid)) := by
  unfold validate_json runWorkflow at h
  cases hf : final_assessment_node (pre_final env (initial_state d sch rules)).1 with
  | error e => rw [hf] at h; exact absurd h (by simp [Except.map])
  | ok st =>
      rw [hf] at h
      simp only [Except.map] at h
      obtain ⟨rep2, h1, h2⟩ := final_assessment_overall _ _ hf
      injection h with h
      rw [h] at h1
      injection h1 with h1
      rw [h1]
      exact h2

/-- Whenever the structural check passes, the judge is invoked exactly
once, whatever it answers. -/
theorem llm_calls_one (env : Env) (d sch : JsonVal) (rules : List String)
    (hc : env.check d sch = .ok) :
    llm_calls env d sch rules = 1 := by
  simp only [llm_calls, pre_final, schema_validation_node, initial_state,
    should_continue_to_semantic, hc, reduceIte, reduceCtorEq, semantic_validation_node]
  cases env.llm (buildRequest env.dumps d rules) with
  | raises msg => rfl
  | returns c =>
      cases hld : env.loads c with
      | none => simp only [hld]
      | some v =>
          cases v <;> simp only [hld]
          split <;> rfl

/-- Inversion of a successful `validate_json` run: the final node
succeeded on the pre-final state and produced the returned report. -/
theorem validate_ok_inv (env : Env) (d sch : JsonVal) (rules : List String)
    (rep : ValidationReport)
    (h : validate_json env d sch rules = .ok (some rep)) :
    ∃ st, final_assessment_node (pre_final env (initial_state d sch rules)).1 = .ok st ∧
      st.validation_report = some rep := by
  unfold validate_json runWorkflow at h
  cases hf : final_assessment_node (pre_final env (initial_state d sch rules)).1 with
  | error e => rw [hf] at h; exact absurd h (by simp [Except.map])
  | ok st =>
      rw [hf] at h
      simp only [Except.map] at h
      injection h with h
      exact ⟨st, rfl, h⟩

/-- The final node copies the incoming `schema_errors` into the report
and sets the structural `passed` flag from its emptiness. -/
theorem final_assessment_schema_section (s st : ValidationState)
    (h : final_assessment_node s = .ok st) :
    ∃ rep, st.validation_report = some rep ∧
      rep.schema_validation.passed = s.schema_errors.isEmpty ∧
      rep.schema_validation.errors = s.schema_errors := by
  simp only [final_assessment_node] at h
  split at h
  · exact absurd h (by simp)
  · split at h
    · exact absurd h (by simp)
    · cases h
      exact ⟨_, rfl, rfl, rfl⟩

/-- When the structural check passes, no later node touches
`schema_errors`: the state entering the final node carries `[]`. -/
theorem pre_final_ok_schema_errors (env : Env) (d sch : JsonVal) (rules : List String)
    (hc : env.check d sch = .ok) :
    (pre_final env (initial_state d sch rules)).1.schema_errors = [] := by
  simp only [pre_final, schema_validation_node, initial_state,
    should_continue_to_semantic, hc, reduceIte, reduceCtorEq, semantic_validation_node]
  cases env.llm (buildRequest env.dumps d rules) with
  | raises msg => rfl
  | returns c =>
      cases hld : env.loads c with
      | none => simp only [hld]
      | some v =>
          cases v <;> simp only [hld]
          split <;> rfl

/-! ## Claims -/

/-- Claim C1 (violated by the code; evidence): on a document the schema
rejects, the compiled graph's conditional edge routes the run straight to
the final node, so the skip branch of `semantic_validation_node` — the
only writer of the `"Skipped due to schema validation failure"` sentinel —
never executes.  The report keeps `structural.passed = false` and
`overallValid = false`, but its semantic section is `passed = true` with
an empty error list instead of the sentinel the claim requires. -/
theorem C1_skip_sentinel_never_emitted :
    validate_json envC1 (.obj []) (.obj []) ["any rule"] = .ok (some repC1) ∧
    repC1.schema_validation.passed = false ∧
    repC1.overall_valid = false ∧
    repC1.semantic_validation.errors = .arr [] ∧
    repC1.semantic_validation.passed = true ∧
    repC1.semantic_validation.errors ≠
      .arr [.str "Skipped due to schema validation failure"] ∧
    llm_calls envC1 (.obj []) (.obj []) ["any rule"] = 0 :=
  ⟨rfl, rfl, rfl, rfl, rfl, by simp [repC1], rfl⟩

/-- Claim C2: a successfully returned report has `overallValid = true`
exactly when the structural check passed and the state entering the final
node is `SEMANTIC_VALID`; in particular a structurally failing document
is always reported overall invalid. -/
theorem C2_overall_valid_iff (env : Env) (d sch : JsonVal) (rules : List String)
    (rep : ValidationReport)
    (h : validate_json env d sch rules = .ok (some rep)) :
    (rep.overall_valid = true ↔
      (env.check d sch = .ok ∧
        (pre_final env (initial_state d sch rules)).1.status =
          ValidationStatus.semantic_valid)) ∧
    (env.check d sch ≠ .ok → rep.overall_valid = false) := by
  have hov := validate_ok_overall env d sch rules rep h
  constructor
  · rw [hov]
    constructor
    · intro hb
      rw [Bool.and_eq_true] at hb
      obtain ⟨h1, h2⟩ := hb
      have hsv := of_decide_eq_true h2
      refine ⟨?_, hsv⟩
      cases hck : env.check d sch with
      | ok => rfl
      | violation m =>
          rw [pre_final_violation env d sch rules m hck] at hsv
          exact absurd hsv (by simp)
      | fault m =>
          rw [pre_final_fault env d sch rules m hck] at hsv
          exact absurd hsv (by simp)
    · rintro ⟨hok, hsv⟩
      rw [hsv]
      rfl
  · intro hne
    rw [hov]
    cases hck : env.check d sch with
    | ok => exact absurd hck hne
    | violation m => rw [pre_final_violation env d sch rules m hck]; rfl
    | fault m => rw [pre_final_fault env d sch rules m hck]; rfl

/-- Witness for C2 on a concrete all-passing run. -/
theorem C2_overall_valid_iff_witness :
    (validate_json envOkJudge (.obj []) (.obj []) [] = .ok (some repOkJudge)) ∧
    (repOkJudge.overall_valid = true ↔
      (envOkJudge.check (.obj []) (.obj []) = .ok ∧
        (pre_final envOkJudge (initial_state (.obj []) (.obj []) [])).1.status =
          ValidationStatus.semantic_valid)) ∧
    (envOkJudge.check (.obj []) (.obj []) ≠ .ok → repOkJudge.overall_valid = false) :=
  ⟨rfl, C2_overall_valid_iff envOkJudge (.obj []) (.obj []) [] repOkJudge rfl⟩

/-- Claim C3, counterexample: the parse-failure message the code emits is
`"Failed to parse LLM validation response"`, not the
`"Failed to parse semantic validation response"` the claim states. -/
theorem C3_parse_failure_message_differs :
    validate_json envUnparseable (.obj []) (.obj []) [] = .ok (some repUnparseable) ∧
    repUnparseable.semantic_validation.errors ≠
      .arr [.str "Failed to parse semantic validation response"] :=
  ⟨rfl, by simp [repUnparseable]⟩

/-- Claim C3 as amended: for a structurally valid document whose judge
response `json.loads` rejects, the semantic phase fails with exactly
`["Failed to parse LLM validation response"]` and the report is overall
invalid. -/
theorem C3_unparseable_response (env : Env) (d sch : JsonVal) (rules : List String)
    (c : String)
    (hc : env.check d sch = .ok)
    (hl : env.llm (buildRequest env.dumps d rules) = .returns c)
    (hp : env.loads c = none) :
    ∃ rep, validate_json env d sch rules = .ok (some rep) ∧
      rep.semantic_validation.passed = false ∧
      rep.semantic_validation.errors =
        .arr [.str "Failed to parse LLM validation response"] ∧
      rep.overall_valid = false :=
  ⟨_, (run_ok_unparseable env d sch rules c hc hl hp).1, rfl, rfl, rfl⟩

/-- Witness for the amended C3 on a concrete run. -/
theorem C3_unparseable_response_witness :
    ∃ rep, validate_json envUnparseable (.obj []) (.obj []) [] = .ok (some rep) ∧
      rep.semantic_validation.passed = false ∧
      rep.semantic_validation.errors =
        .arr [.str "Failed to parse LLM validation response"] ∧
      rep.overall_valid = false :=
  C3_unparseable_response envUnparseable (.obj []) (.obj []) [] "not json" rfl rfl rfl

/-- Claim C4: when the judge call raises, the failure is converted to
data: the semantic phase fails, its single error message starts with
`"Semantic validation error:"` followed by the cause, the report is
overall invalid, and the judge was invoked exactly once (never
retried). -/
theorem C4_judge_failure_captured (env : Env) (d sch : JsonVal) (rules : List String)
    (msg : String)
    (hc : env.check d sch = .ok)
    (hl : env.llm (buildRequest env.dumps d rules) = .raises msg) :
    ∃ rep, validate_json env d sch rules = .ok (some rep) ∧
      rep.semantic_validation.passed = false ∧
      (∃ rest, rep.semantic_validation.errors =
        .arr [.str ("Semantic validation error:" ++ rest)]) ∧
      rep.overall_valid = false ∧
      llm_calls env d sch rules = 1 := by
  obtain ⟨h1, h2⟩ := run_ok_raises env d sch rules msg hc hl
  exact ⟨_, h1, rfl, ⟨" " ++ msg, rfl⟩, rfl, h2⟩

/-- Witness for C4 on a concrete simulated network failure. -/
theorem C4_judge_failure_captured_witness :
    ∃ rep, validate_json envRaises (.obj []) (.obj []) [] = .ok (some rep) ∧
      rep.semantic_validation.passed = false ∧
      (∃ rest, rep.semantic_validation.errors =
        .arr [.str ("Semantic validation error:" ++ rest)]) ∧
      rep.overall_valid = false ∧
      llm_calls envRaises (.obj []) (.obj []) [] = 1 :=
  C4_judge_failure_captured envRaises (.obj []) (.obj []) [] "Connection error" rfl rfl

/-- Claim C5: the structural validator yields, at report level,
`passed = true` with no errors on success; `passed = false` with one
recorded violation message (hence a non-empty list) on a violation; and
`passed = false` with the single message
`"Schema validation error: <cause>"` — recovered into data rather than
propagated — when the checking routine itself fails. -/
theorem C5_structural_validator (env : Env) (d sch : JsonVal) (rules : List String) :
    (env.check d sch = .ok →
      ∀ rep, validate_json env d sch rules = .ok (some rep) →
        rep.schema_validation.passed = true ∧ rep.schema_validation.errors = []) ∧
    (∀ m, env.check d sch = .violation m →
      ∃ rep, validate_json env d sch rules = .ok (some rep) ∧
        rep.schema_validation.passed = false ∧
        rep.schema_validation.errors = [m] ∧
        rep.schema_validation.errors.length ≥ 1) ∧
    (∀ m, env.check d sch = .fault m →
      ∃ rep, validate_json env d sch rules = .ok (some rep) ∧
        rep.schema_validation.passed = false ∧
        rep.schema_validation.errors = ["Schema validation error: " ++ m]) := by
  refine ⟨?_, ?_, ?_⟩
  · intro hok rep h
    obtain ⟨st, hf, hrep⟩ := validate_ok_inv env d sch rules rep h
    obtain ⟨rep2, h1, hp, he⟩ := final_assessment_schema_section _ _ hf
    rw [hrep] at h1
    injection h1 with h1
    subst h1
    rw [pre_final_ok_schema_errors env d sch rules hok] at hp he
    exact ⟨hp.trans rfl, he⟩
  · intro m hm
    exact ⟨_, (run_violation env d sch rules m hm).1, rfl, rfl, Nat.le_refl 1⟩
  · intro m hm
    exact ⟨_, (run_fault env d sch rules m hm).1, rfl, rfl⟩

/-- Witness for C5: one concrete run per checker outcome. -/
theorem C5_structural_validator_witness :
    (validate_json envCheckCases .null (.obj []) [] = .ok (some repOkJudge) ∧
      repOkJudge.schema_validation.passed = true ∧
      repOkJudge.schema_validation.errors = []) ∧
    (∃ rep, validate_json envCheckCases (.bool true) (.obj []) [] = .ok (some rep) ∧
      rep.schema_validation.passed = false ∧
      rep.schema_validation.errors = ["document rejected by schema"] ∧
      rep.schema_validation.errors.length ≥ 1) ∧
    (∃ rep, validate_json envCheckCases (.num 0) (.obj []) [] = .ok (some rep) ∧
      rep.schema_validation.passed = false ∧
      rep.schema_validation.errors = ["Schema validation error: " ++ "malformed schema"]) :=
  ⟨⟨rfl, ((C5_structural_validator envCheckCases .null (.obj []) []).1 rfl repOkJudge rfl).1,
     ((C5_structural_validator envCheckCases .null (.obj []) []).1 rfl repOkJudge rfl).2⟩,
   (C5_structural_validator envCheckCases (.bool true) (.obj []) []).2.1
     "document rejected by schema" rfl,
   (C5_structural_validator envCheckCases (.num 0) (.obj []) []).2.2
     "malformed schema" rfl⟩

/-- Claim C6, counterexample: a judge response parsing to
`{"is_valid": false, "errors": 0}` on a structurally valid document makes
`len(state["semantic_errors"])` in the final node raise an uncaught
`TypeError`, so the engine does not return a report: the exception
reaches the caller. -/
theorem C6_uncaught_typeerror :
    validate_json envErrorsNum (.obj []) (.obj []) [] =
      .error "object of type \x27int\x27 has no len()" := rfl

/-- Claim C6 as amended: the structural and semantic nodes recover all
their failures (they are total functions into states), and whenever the
judge's `errors` value, if consulted, is a list of strings — as the
response contract promises — the engine always terminates with a report
instead of an exception. -/
theorem C6_engine_total_wellformed (env : Env) (d sch : JsonVal) (rules : List String)
    (hw : judge_errors_wellformed env d rules) :
    ∃ rep, validate_json env d sch rules = .ok (some rep) := by
  cases hck : env.check d sch with
  | violation m => exact ⟨_, (run_violation env d sch rules m hck).1⟩
  | fault m => exact ⟨_, (run_fault env d sch rules m hck).1⟩
  | ok =>
      cases hllm : env.llm (buildRequest env.dumps d rules) with
      | raises msg => exact ⟨_, (run_ok_raises env d sch rules msg hck hllm).1⟩
      | returns c =>
          cases hld : env.loads c with
          | none => exact ⟨_, (run_ok_unparseable env d sch rules c hck hllm hld).1⟩
          | some v =>
              cases v with
              | obj fs =>
                  cases ht : truthy (dictGet fs "is_valid" (.bool false)) with
                  | true =>
                      exact ⟨_, (run_ok_semantic_valid env d sch rules c fs hck hllm hld ht).1⟩
                  | false =>
                      have hpre := pre_final_semantic_invalid env d sch rules c fs hck hllm hld ht
                      have hwf : ∃ l : List String,
                          dictGet fs "errors" (.arr [.str "Semantic validation failed"]) =
                            .arr (l.map .str) := by
                        unfold dictGet
                        cases hlf : lookupField fs "errors" with
                        | none => exact ⟨["Semantic validation failed"], rfl⟩
                        | some v2 =>
                            obtain ⟨l, hl2⟩ := hw c fs v2 hllm hld hlf
                            exact ⟨l, by rw [Option.getD]; exact hl2⟩
                      obtain ⟨l, hl2⟩ := hwf
                      have hfin := final_assessment_eq
                        { json_data := d, schema := sch, custom_rules := rules,
                          status := .semantic_invalid, schema_errors := [],
                          semantic_errors :=
                            dictGet fs "errors" (.arr [.str "Semantic validation failed"]),
                          is_valid := false, validation_report := none } l hl2
                      have hv2 : validate_json env d sch rules =
                          (final_assessment_node
                            { json_data := d, schema := sch, custom_rules := rules,
                              status := .semantic_invalid, schema_errors := [],
                              semantic_errors :=
                                dictGet fs "errors" (.arr [.str "Semantic validation failed"]),
                              is_valid := false, validation_report := none }).map
                            (fun st => st.validation_report) := by
                        simp only [validate_json, runWorkflow, hpre]
                      rw [hfin] at hv2
                      simp only [Except.map] at hv2
                      exact ⟨_, hv2⟩
              | null =>
                  exact ⟨_, (run_ok_nonobject env d sch rules c _ hck hllm hld
                    (fun fs h => JsonVal.noConfusion h)).1⟩
              | bool b =>
                  exact ⟨_, (run_ok_nonobject env d sch rules c _ hck hllm hld
                    (fun fs h => JsonVal.noConfusion h)).1⟩
              | num n =>
                  exact ⟨_, (run_ok_nonobject env d sch rules c _ hck hllm hld
                    (fun fs h => JsonVal.noConfusion h)).1⟩
              | str t =>
                  exact ⟨_, (run_ok_nonobject env d sch rules c _ hck hllm hld
                    (fun fs h => JsonVal.noConfusion h)).1⟩
              | arr xs =>
                  exact ⟨_, (run_ok_nonobject env d sch rules c _ hck hllm hld
                    (fun fs h => JsonVal.noConfusion h)).1⟩

/-- Witness for the amended C6 on a concrete conforming judge. -/
theorem C6_engine_total_wellformed_witness :
    ∃ rep, validate_json envFalsy (.obj []) (.obj []) [] = .ok (some rep) :=
  C6_engine_total_wellformed envFalsy (.obj []) (.obj []) [] (by
    intro c fs v h1 h2 h3
    injection h2 with h2
    injection h2 with h2
    subst h2
    rw [show lookupField [("is_valid", JsonVal.bool false)] "errors" = none from rfl] at h3
    exact Option.noConfusion h3)

/-- Claim C7: the pipeline consults its collaborators only through their
behaviour — two runs on identical inputs against checkers, serializers,
parsers and a judge that answer identically (the judge being a function
of the single request this run builds) produce identical results. -/
theorem C7_two_runs_identical (env1 env2 : Env) (d sch : JsonVal) (rules : List String)
    (hcheck : env1.check = env2.check)
    (_hdumps : env1.dumps = env2.dumps)
    (hloads : env1.loads = env2.loads)
    (hllm : env1.llm (buildRequest env1.dumps d rules) =
      env2.llm (buildRequest env2.dumps d rules)) :
    validate_json env1 d sch rules = validate_json env2 d sch rules := by
  cases hck : env1.check d sch with
  | violation m =>
      have hck2 : env2.check d sch = .violation m := by rw [← hcheck]; exact hck
      rw [(run_violation env1 d sch rules m hck).1, (run_violation env2 d sch rules m hck2).1]
  | fault m =>
      have hck2 : env2.check d sch = .fault m := by rw [← hcheck]; exact hck
      rw [(run_fault env1 d sch rules m hck).1, (run_fault env2 d sch rules m hck2).1]
  | ok =>
      have hck2 : env2.check d sch = .ok := by rw [← hcheck]; exact hck
      cases hllm2 : env1.llm (buildRequest env1.dumps d rules) with
      | raises msg =>
          have h2 : env2.llm (buildRequest env2.dumps d rules) = .raises msg := by
            rw [← hllm]; exact hllm2
          rw [(run_ok_raises env1 d sch rules msg hck hllm2).1,
              (run_ok_raises env2 d sch rules msg hck2 h2).1]
      | returns c =>
          have h2 : env2.llm (buildRequest env2.dumps d rules) = .returns c := by
            rw [← hllm]; exact hllm2
          cases hld : env1.loads c with
          | none =>
              have hld2 : env2.loads c = none := by rw [← hloads]; exact hld
              rw [(run_ok_unparseable env1 d sch rules c hck hllm2 hld).1,
                  (run_ok_unparseable env2 d sch rules c hck2 h2 hld2).1]
          | some v =>
              have hld2 : env2.loads c = some v := by rw [← hloads]; exact hld
              cases v
              case obj fs =>
                  cases ht : truthy (dictGet fs "is_valid" (.bool false)) with
                  | true =>
                      rw [(run_ok_semantic_valid env1 d sch rules c fs hck hllm2 hld ht).1,
                          (run_ok_semantic_valid env2 d sch rules c fs hck2 h2 hld2 ht).1]
                  | false =>
                      have p1 := pre_final_semantic_invalid env1 d sch rules c fs hck hllm2 hld ht
                      have p2 := pre_final_semantic_invalid env2 d sch rules c fs hck2 h2 hld2 ht
                      simp only [validate_json, runWorkflow, p1, p2]
              all_goals
                rw [(run_ok_nonobject env1 d sch rules c _ hck hllm2 hld
                      (fun _ hh => JsonVal.noConfusion hh)).1,
                    (run_ok_nonobject env2 d sch rules c _ hck2 h2 hld2
                      (fun _ hh => JsonVal.noConfusion hh)).1]

/-- Witness for C7: two behaviourally equal environments with
syntactically different judge functions give the same report. -/
theorem C7_two_runs_identical_witness :
    validate_json envOkJudge (.obj []) (.obj []) [] =
      validate_json envOkJudgeTwin (.obj []) (.obj []) [] :=
  C7_two_runs_identical envOkJudge envOkJudgeTwin (.obj []) (.obj []) [] rfl rfl rfl rfl

/-- Claim C8, counterexample: with an empty rule list the judge is still
invoked and its verdict decides — a judge answering `is_valid = false`
makes the semantic phase fail, so semantic judging does not trivially
pass independently of the judge. -/
theorem C8_empty_rules_not_trivially_valid :
    validate_json envFalsy (.obj []) (.obj []) [] = .ok (some repFalsy) ∧
    repFalsy.semantic_validation.passed = false ∧
    repFalsy.overall_valid = false :=
  ⟨rfl, rfl, rfl⟩

/-- Claim C8 as amended: an empty rule list is not special-cased — the
judge is invoked exactly once and the semantic outcome follows its
verdict: a truthy `is_valid` yields a passing semantic section (and an
overall-valid report), a falsy one an overall-invalid report. -/
theorem C8_empty_rules_judge_decides (env : Env) (d sch : JsonVal)
    (hc : env.check d sch = .ok) :
    llm_calls env d sch [] = 1 ∧
    (∀ c fs, env.llm (buildRequest env.dumps d []) = .returns c →
      env.loads c = some (.obj fs) →
      truthy (dictGet fs "is_valid" (.bool false)) = true →
      ∃ rep, validate_json env d sch [] = .ok (some rep) ∧
        rep.semantic_validation.passed = true ∧ rep.overall_valid = true) ∧
    (∀ c fs, env.llm (buildRequest env.dumps d []) = .returns c →
      env.loads c = some (.obj fs) →
      truthy (dictGet fs "is_valid" (.bool false)) = false →
      ∀ rep, validate_json env d sch [] = .ok (some rep) →
        rep.overall_valid = false) := by
  refine ⟨llm_calls_one env d sch [] hc, ?_, ?_⟩
  · intro c fs hl hp ht
    exact ⟨_, (run_ok_semantic_valid env d sch [] c fs hc hl hp ht).1, rfl, rfl⟩
  · intro c fs hl hp ht rep h
    have hov := validate_ok_overall env d sch [] rep h
    rw [pre_final_semantic_invalid env d sch [] c fs hc hl hp ht] at hov
    exact hov

/-- Witness for the amended C8: a passing and a failing judge verdict on
empty rule lists, plus the single-invocation count. -/
theorem C8_empty_rules_judge_decides_witness :
    llm_calls envFalsy (.obj []) (.obj []) [] = 1 ∧
    repFalsy.overall_valid = false ∧
    (∃ rep, validate_json envOkJudge (.obj []) (.obj []) [] = .ok (some rep) ∧
      rep.semantic_validation.passed = true ∧ rep.overall_valid = true) :=
  ⟨(C8_empty_rules_judge_decides envFalsy (.obj []) (.obj []) rfl).1,
   (C8_empty_rules_judge_decides envFalsy (.obj []) (.obj []) rfl).2.2
     "resp" [("is_valid", .bool false)] rfl rfl rfl repFalsy rfl,
   (C8_empty_rules_judge_decides envOkJudge (.obj []) (.obj []) rfl).2.1
     "resp" [("is_valid", .bool true), ("errors", .arr [])] rfl rfl rfl⟩

/-- Claim C9: on a terminal state carrying a list of semantic error
strings, the report builder sets each `passed` flag from emptiness of the
corresponding error list, copies both lists unchanged, and emits either
the fixed confirmation summary or the concatenation of only the
non-empty failure sections. -/
theorem C9_report_builder (s : ValidationState) (es : List String)
    (h : s.semantic_errors = .arr (es.map .str)) :
    ∃ st rep, final_assessment_node s = .ok st ∧ st.validation_report = some rep ∧
      (rep.schema_validation.passed = true ↔ s.schema_errors = []) ∧
      rep.schema_validation.errors = s.schema_errors ∧
      (rep.semantic_validation.passed = true ↔ es = []) ∧
      rep.semantic_validation.errors = s.semantic_errors ∧
      (rep.overall_valid = true →
        rep.summary = "JSON data is valid according to both schema and semantic rules.") ∧
      (rep.overall_valid = false →
        rep.summary = "JSON data is invalid. Issues found: " ++
          String.intercalate " | "
            ((if s.schema_errors = [] then [] else
               ["Schema validation failed: " ++ String.intercalate "; " s.schema_errors]) ++
             (if es = [] then [] else
               ["Semantic validation failed: " ++ String.intercalate "; " es]))) := by
  refine ⟨_, _, final_assessment_eq s es h, rfl, ?_, rfl, ?_, rfl, ?_, ?_⟩
  · exact List.isEmpty_iff
  · exact List.isEmpty_iff
  · intro hov
    simp only at hov ⊢
    rw [hov]
    simp
  · intro hov
    simp only at hov ⊢
    rw [hov]
    simp [List.isEmpty_iff]

/-- Witness for C9 on a concrete terminal state with one semantic
error. -/
theorem C9_report_builder_witness :
    stateC9.semantic_errors = .arr (["age rule violated"].map .str) ∧
    (∃ st rep, final_assessment_node stateC9 = .ok st ∧ st.validation_report = some rep ∧
      (rep.schema_validation.passed = true ↔ stateC9.schema_errors = []) ∧
      rep.schema_validation.errors = stateC9.schema_errors ∧
      (rep.semantic_validation.passed = true ↔ ["age rule violated"] = ([] : List String)) ∧
      rep.semantic_validation.errors = stateC9.semantic_errors ∧
      (rep.overall_valid = true →
        rep.summary = "JSON data is valid according to both schema and semantic rules.") ∧
      (rep.overall_valid = false →
        rep.summary = "JSON data is invalid. Issues found: " ++
          String.intercalate " | "
            ((if stateC9.schema_errors = [] then [] else
               ["Schema validation failed: " ++ String.intercalate "; " stateC9.schema_errors]) ++
             (if ["age rule violated"] = ([] : List String) then [] else
               ["Semantic validation failed: " ++
                 String.intercalate "; " ["age rule violated"]])))) :=
  ⟨rfl, C9_report_builder stateC9 ["age rule violated"] rfl⟩

/-- Claim C10, counterexample: a parsed response whose `is_valid` is the
JSON number `1` — absent boolean `true`, hence "not true" — is treated as
passing, because the code tests Python truthiness, not equality with
`true`. -/
theorem C10_truthy_nonbool_passes :
    validate_json envTruthyNum (.obj []) (.obj []) [] = .ok (some repTruthyNum) ∧
    lookupField [("is_valid", JsonVal.num 1)] "is_valid" = some (.num 1) ∧
    JsonVal.num 1 ≠ JsonVal.bool true ∧
    repTruthyNum.semantic_validation.passed = true ∧
    repTruthyNum.overall_valid = true :=
  ⟨rfl, rfl, by simp, rfl, rfl⟩

/-- Claim C10 as amended: a parsed object response whose `is_valid` is
absent or Python-falsy is treated as a semantic failure (the run reaches
the final node as `SEMANTIC_INVALID` and any returned report is overall
invalid), and when the `errors` field is also absent the semantic error
list defaults to exactly `["Semantic validation failed"]`. -/
theorem C10_falsy_is_valid_fails (env : Env) (d sch : JsonVal) (rules : List String)
    (c : String) (fs : List (String × JsonVal))
    (hc : env.check d sch = .ok)
    (hl : env.llm (buildRequest env.dumps d rules) = .returns c)
    (hp : env.loads c = some (.obj fs))
    (hv : truthy (dictGet fs "is_valid" (.bool false)) = false) :
    (pre_final env (initial_state d sch rules)).1.status =
      ValidationStatus.semantic_invalid ∧
    (∀ rep, validate_json env d sch rules = .ok (some rep) → rep.overall_valid = false) ∧
    (lookupField fs "errors" = none →
      ∃ rep, validate_json env d sch rules = .ok (some rep) ∧
        rep.semantic_validation.passed = false ∧
        rep.semantic_validation.errors = .arr [.str "Semantic validation failed"]) := by
  have hpre := pre_final_semantic_invalid env d sch rules c fs hc hl hp hv
  refine ⟨by rw [hpre], ?_, ?_⟩
  · intro rep h
    have hov := validate_ok_overall env d sch rules rep h
    rw [hpre] at hov
    exact hov
  · intro hnone
    have hse : dictGet fs "errors" (.arr [.str "Semantic validation failed"]) =
        .arr (["Semantic validation failed"].map .str) := by
      unfold dictGet
      rw [hnone]
      rfl
    have hfin := final_assessment_eq
      { json_data := d, schema := sch, custom_rules := rules,
        status := .semantic_invalid, schema_errors := [],
        semantic_errors := dictGet fs "errors" (.arr [.str "Semantic validation failed"]),
        is_valid := false, validation_report := none } ["Semantic validation failed"] hse
    have hv2 : validate_json env d sch rules =
        (final_assessment_node
          { json_data := d, schema := sch, custom_rules := rules,
            status := .semantic_invalid, schema_errors := [],
            semantic_errors := dictGet fs "errors" (.arr [.str "Semantic validation failed"]),
            is_valid := false, validation_report := none }).map
          (fun st => st.validation_report) := by
      simp only [validate_json, runWorkflow, hpre]
    rw [hfin] at hv2
    simp only [Except.map] at hv2
    exact ⟨_, hv2, rfl, hse⟩

/-- Witness for the amended C10 on a concrete falsy response without an
`errors` field. -/
theorem C10_falsy_is_valid_fails_witness :
    (pre_final envFalsy (initial_state (.obj []) (.obj []) [])).1.status =
      ValidationStatus.semantic_invalid ∧
    (∃ rep, validate_json envFalsy (.obj []) (.obj []) [] = .ok (some rep) ∧
      rep.semantic_validation.passed = false ∧
      rep.semantic_validation.errors = .arr [.str "Semantic validation failed"]) :=
  have h := C10_falsy_is_valid_fails envFalsy (.obj []) (.obj []) [] "resp"
    [("is_valid", .bool false)] rfl rfl rfl rfl
  ⟨h.1, h.2.2 rfl⟩

end JsonValidator
